import Mathlib

/-!
Shallow embedding of `src/sys/windows/source_socket.rs` from the mio
repository: the `SourceSocket` adapter that lets a borrowed raw socket
handle be registered with, updated in, and removed from an event registry.

The adapter itself (`SourceSocket` and its three `event::Source` methods)
is translated directly from the source.  The external collaborator — the
`IoSource` binding, the `Registry`, `Token` and `Interest` types — is
repository code that is not part of the given source tree and is therefore
modelled from the specification (see the doc comments starting
`Modelled from the spec:`).
-/

/-- A raw OS socket handle (`std::os::windows::io::RawSocket`), an opaque
numeric identifier for a socket; modelled by its numeric value. -/
abbrev RawSocket := Nat

/-- Modelled from the spec: missing `crate::Token` — a registration token,
"an opaque caller-chosen identifier correlating future readiness
notifications back to this registration". -/
structure Token where
  val : Nat
deriving DecidableEq, Repr

/-- Modelled from the spec: missing `crate::Interest` — an interest set,
"a value describing which readiness conditions (read-ready, write-ready,
or both) the caller wants notifications for". -/
inductive Interest where
  | readable
  | writable
  | both
deriving DecidableEq, Repr

/-- Modelled from the spec: the error taxonomy is a single kind,
"underlying registration operation failed", carrying the reason.  The two
reasons the spec's preconditions distinguish are double registration and
operating on an unregistered handle. -/
inductive IoError where
  | alreadyRegistered
  | notRegistered
deriving DecidableEq, Repr

/-- Modelled from the spec: missing `crate::Registry` — the external
central readiness registry.  Its per-handle state (unregistered or
registered with a token and interest set) is modelled as an association
table from handles to their current registration. -/
structure Registry where
  table : List (RawSocket × Token × Interest)
deriving DecidableEq, Repr

/-- Modelled from the spec: the registry's current registration entry for a
handle, if any. -/
def Registry.find (reg : Registry) (r : RawSocket) : Option (Token × Interest) :=
  (reg.table.find? (fun e => e.1 == r)).map (fun e => e.2)

/-- Modelled from the spec: whether a handle is currently in the registered
state with this registry. -/
def Registry.isRegistered (reg : Registry) (r : RawSocket) : Bool :=
  (reg.find r).isSome

/-- Modelled from the spec: missing `crate::io_source::IoSource` — the
short-lived selector/completion-port binding "scoped to the handle
reference" that the adapter constructs and delegates to. -/
structure IoSource where
  sock : RawSocket
deriving DecidableEq, Repr

/-- Modelled from the spec: `IoSource::new`, binding construction over a
handle reference. -/
def IoSource.new (r : RawSocket) : IoSource :=
  ⟨r⟩

/-- Modelled from the spec: the binding's `register` — "establishes a new
readiness subscription ... Precondition: the handle must not already be
registered with this registry (double-registration is a caller error
surfaced as a failure)".  On success the registry records the handle under
the given token and interest set; the state change is returned as the new
registry state. -/
def IoSource.register (s : IoSource) (registry : Registry) (token : Token)
    (interests : Interest) : Except IoError Registry :=
  if registry.isRegistered s.sock then
    .error .alreadyRegistered
  else
    .ok ⟨(s.sock, token, interests) :: registry.table⟩

/-- Modelled from the spec: the binding's `reregister` — "atomically
replaces the current interest set and/or token for an already-registered
handle.  Precondition: the handle must currently be registered with this
registry; calling it on an unregistered handle fails". -/
def IoSource.reregister (s : IoSource) (registry : Registry) (token : Token)
    (interests : Interest) : Except IoError Registry :=
  if registry.isRegistered s.sock then
    .ok ⟨registry.table.map (fun e => if e.1 == s.sock then (s.sock, token, interests) else e)⟩
  else
    .error .notRegistered

/-- Modelled from the spec: the binding's `deregister` — "removes the
handle's subscription from the registry entirely ... calling it when not
registered fails rather than silently succeeding". -/
def IoSource.deregister (s : IoSource) (registry : Registry) : Except IoError Registry :=
  if registry.isRegistered s.sock then
    .ok ⟨registry.table.filter (fun e => e.1 != s.sock)⟩
  else
    .error .notRegistered

/-- `pub struct SourceSocket<'a>(pub &'a RawSocket)`: the adapter, wrapping
a non-owning reference to a raw socket handle.  The reference is modelled
by the handle value it points to; the public tuple field `.0` is the
structure field `sock`. -/
structure SourceSocket where
  sock : RawSocket
deriving DecidableEq, Repr

/-- `fn register(&mut self, registry, token, interests)`, whose body is
`IoSource::new(self.0).register(registry, token, interests)`.  The
`&mut self` receiver is translated by explicit state passing: the result
pairs the post-call adapter state with the call's outcome.  The body writes
nothing to `self`, so the post-call state is the input state. -/
def SourceSocket.register (self : SourceSocket) (registry : Registry)
    (token : Token) (interests : Interest) :
    SourceSocket × Except IoError Registry :=
  (self, (IoSource.new self.sock).register registry token interests)

/-- `fn reregister(&mut self, registry, token, interests)`, whose body is
`IoSource::new(self.0).reregister(registry, token, interests)`. -/
def SourceSocket.reregister (self : SourceSocket) (registry : Registry)
    (token : Token) (interests : Interest) :
    SourceSocket × Except IoError Registry :=
  (self, (IoSource.new self.sock).reregister registry token interests)

/-- `fn deregister(&mut self, registry)`, whose body is
`IoSource::new(self.0).deregister(registry)`. -/
def SourceSocket.deregister (self : SourceSocket) (registry : Registry) :
    SourceSocket × Except IoError Registry :=
  (self, (IoSource.new self.sock).deregister registry)

/-! ### Helper lemmas about the modelled registry -/

lemma isRegistered_cons_self (h : RawSocket) (t : Token) (i : Interest)
    (l : List (RawSocket × Token × Interest)) :
    Registry.isRegistered ⟨(h, t, i) :: l⟩ h = true := by
  simp [Registry.isRegistered, Registry.find, List.find?]

lemma isRegistered_filter_self (h : RawSocket)
    (l : List (RawSocket × Token × Interest)) :
    Registry.isRegistered ⟨l.filter (fun e => e.1 != h)⟩ h = false := by
  have hnone : (l.filter (fun e => e.1 != h)).find? (fun e => e.1 == h) = none := by
    rw [List.find?_eq_none]
    intro e he
    have := (List.mem_filter.mp he).2
    simpa using this
  simp [Registry.isRegistered, Registry.find, hnone]

lemma register_ok_shape (h : RawSocket) (reg reg1 : Registry) (t : Token)
    (i : Interest)
    (hok : (IoSource.new h).register reg t i = Except.ok reg1) :
    reg.isRegistered h = false ∧ reg1 = ⟨(h, t, i) :: reg.table⟩ := by
  by_cases hr : reg.isRegistered h
  · simp [IoSource.register, IoSource.new, hr] at hok
  · simp only [Bool.not_eq_true] at hr
    simp [IoSource.register, IoSource.new, hr] at hok
    exact ⟨hr, hok.symm⟩

lemma find?_map_overwrite (h : RawSocket) (t : Token) (i : Interest)
    (l : List (RawSocket × Token × Interest)) :
    (l.map (fun e => if e.1 == h then (h, t, i) else e)).find? (fun e => e.1 == h)
      = (l.find? (fun e => e.1 == h)).map (fun _ => (h, t, i)) := by
  induction l with
  | nil => rfl
  | cons a l ih =>
    by_cases ha : a.1 = h
    · simp [List.find?, ha]
    · simp only [List.map_cons]
      rw [if_neg (by simpa using ha)]
      rw [List.find?_cons_of_neg _ (by simpa using ha),
        List.find?_cons_of_neg _ (by simpa using ha)]
      exact ih

/-! ### Claim theorems -/

/-- Claim C1: each of the adapter's three operations returns exactly the
result of the corresponding call on a freshly constructed underlying
binding (`IoSource`) over the wrapped handle reference — success is
returned iff the binding's call succeeds, any error value is returned
verbatim, and the adapter adds no retry, buffering, caching or
modification. -/
theorem sourceSocket_pure_delegation (s : SourceSocket) (registry : Registry)
    (token : Token) (interests : Interest) :
    (s.register registry token interests).2
        = (IoSource.new s.sock).register registry token interests
    ∧ (s.reregister registry token interests).2
        = (IoSource.new s.sock).reregister registry token interests
    ∧ (s.deregister registry).2
        = (IoSource.new s.sock).deregister registry :=
  ⟨rfl, rfl, rfl⟩

/-- Claim C2: for every handle not currently registered with a registry,
`register` followed immediately by `deregister` through the adapter both
succeed, and the handle ends in the unregistered state with respect to
that registry (round-trip law). -/
theorem register_deregister_roundtrip (h : RawSocket) (reg : Registry)
    (token : Token) (interests : Interest)
    (hunreg : reg.isRegistered h = false) :
    ∃ reg1, ((SourceSocket.mk h).register reg token interests).2 = Except.ok reg1
      ∧ ∃ reg2, ((SourceSocket.mk h).deregister reg1).2 = Except.ok reg2
        ∧ reg2.isRegistered h = false := by
  refine ⟨⟨(h, token, interests) :: reg.table⟩, ?_, ?_⟩
  · simp [SourceSocket.register, IoSource.register, IoSource.new, hunreg]
  · refine ⟨⟨((h, token, interests) :: reg.table).filter (fun e => e.1 != h)⟩, ?_, ?_⟩
    · simp [SourceSocket.deregister, IoSource.deregister, IoSource.new,
        isRegistered_cons_self]
    · exact isRegistered_filter_self h _

/-- Claim C2 witness: the round trip at handle 0 on the empty registry. -/
theorem register_deregister_roundtrip_witness :
    (Registry.mk []).isRegistered 0 = false
    ∧ ∃ reg1,
        ((SourceSocket.mk 0).register ⟨[]⟩ ⟨1⟩ Interest.readable).2 = Except.ok reg1
      ∧ ∃ reg2, ((SourceSocket.mk 0).deregister reg1).2 = Except.ok reg2
        ∧ reg2.isRegistered 0 = false :=
  ⟨by decide, register_deregister_roundtrip 0 ⟨[]⟩ ⟨1⟩ Interest.readable (by decide)⟩

/-- Claim C3: if `register` through the adapter has succeeded and no
deregistration intervened, a second `register` for the same handle and
registry fails with an error rather than being ignored or merged. -/
theorem register_twice_fails (h : RawSocket) (reg reg1 : Registry)
    (t1 t2 : Token) (i1 i2 : Interest)
    (hfirst : ((SourceSocket.mk h).register reg t1 i1).2 = Except.ok reg1) :
    ((SourceSocket.mk h).register reg1 t2 i2).2
      = Except.error IoError.alreadyRegistered := by
  obtain ⟨-, hshape⟩ := register_ok_shape h reg reg1 t1 i1 hfirst
  subst hshape
  simp [SourceSocket.register, IoSource.register, IoSource.new,
    isRegistered_cons_self]

/-- Claim C3 witness: registering handle 0 twice, starting from the empty
registry; the first call succeeds and the second fails. -/
theorem register_twice_fails_witness :
    ((SourceSocket.mk 0).register ⟨[]⟩ ⟨1⟩ Interest.readable).2
        = Except.ok ⟨[(0, ⟨1⟩, Interest.readable)]⟩
    ∧ ((SourceSocket.mk 0).register ⟨[(0, ⟨1⟩, Interest.readable)]⟩ ⟨2⟩
          Interest.writable).2
        = Except.error IoError.alreadyRegistered :=
  ⟨rfl,
    register_twice_fails 0 ⟨[]⟩ ⟨[(0, ⟨1⟩, Interest.readable)]⟩ ⟨1⟩ ⟨2⟩
      Interest.readable Interest.writable rfl⟩

/-- Claim C4: `reregister` through the adapter on a handle not currently
registered with the registry fails with an error. -/
theorem reregister_unregistered_fails (h : RawSocket) (reg : Registry)
    (token : Token) (interests : Interest)
    (hunreg : reg.isRegistered h = false) :
    ((SourceSocket.mk h).reregister reg token interests).2
      = Except.error IoError.notRegistered := by
  simp [SourceSocket.reregister, IoSource.reregister, IoSource.new, hunreg]

/-- Claim C4 witness: `reregister` of handle 0 on the empty registry
fails. -/
theorem reregister_unregistered_fails_witness :
    (Registry.mk []).isRegistered 0 = false
    ∧ ((SourceSocket.mk 0).reregister ⟨[]⟩ ⟨1⟩ Interest.both).2
        = Except.error IoError.notRegistered :=
  ⟨by decide, reregister_unregistered_fails 0 ⟨[]⟩ ⟨1⟩ Interest.both (by decide)⟩

/-- Claim C5: `deregister` through the adapter on a handle not currently
registered with the registry fails with an error rather than silently
succeeding. -/
theorem deregister_unregistered_fails (h : RawSocket) (reg : Registry)
    (hunreg : reg.isRegistered h = false) :
    ((SourceSocket.mk h).deregister reg).2
      = Except.error IoError.notRegistered := by
  simp [SourceSocket.deregister, IoSource.deregister, IoSource.new, hunreg]

/-- Claim C5 witness: `deregister` of handle 0 on the empty registry
fails. -/
theorem deregister_unregistered_fails_witness :
    (Registry.mk []).isRegistered 0 = false
    ∧ ((SourceSocket.mk 0).deregister ⟨[]⟩).2
        = Except.error IoError.notRegistered :=
  ⟨by decide, deregister_unregistered_fails 0 ⟨[]⟩ (by decide)⟩

lemma reregister_ok_shape (h : RawSocket) (reg reg1 : Registry) (t : Token)
    (i : Interest)
    (hok : (IoSource.new h).reregister reg t i = Except.ok reg1) :
    reg.isRegistered h = true
      ∧ reg1 = ⟨reg.table.map (fun e => if e.1 == h then (h, t, i) else e)⟩ := by
  simp only [IoSource.reregister, IoSource.new] at hok
  by_cases hr : reg.isRegistered h
  · rw [if_pos hr] at hok
    exact ⟨hr, (Except.ok.inj hok).symm⟩
  · rw [if_neg hr] at hok
    exact Except.noConfusion hok

lemma find_after_overwrite (h : RawSocket) (t : Token) (i : Interest)
    (reg : Registry) (hr : reg.isRegistered h = true) :
    Registry.find ⟨reg.table.map (fun e => if e.1 == h then (h, t, i) else e)⟩ h
      = some (t, i) := by
  simp only [Registry.find, find?_map_overwrite]
  have hs : (reg.table.find? (fun e => e.1 == h)).isSome := by
    simpa [Registry.isRegistered, Registry.find] using hr
  obtain ⟨e, he⟩ := Option.isSome_iff_exists.mp hs
  simp [he]

lemma find_cons_ne (h h2 : RawSocket) (t : Token) (i : Interest)
    (reg : Registry) (hne : h2 ≠ h) :
    Registry.find ⟨(h, t, i) :: reg.table⟩ h2 = reg.find h2 := by
  unfold Registry.find
  rw [List.find?_cons_of_neg]
  simpa using Ne.symm hne

lemma find?_map_overwrite_ne (h h2 : RawSocket) (t : Token) (i : Interest)
    (l : List (RawSocket × Token × Interest)) (hne : h2 ≠ h) :
    (l.map (fun e => if e.1 == h then (h, t, i) else e)).find? (fun e => e.1 == h2)
      = l.find? (fun e => e.1 == h2) := by
  induction l with
  | nil => rfl
  | cons a l ih =>
    by_cases ha : a.1 = h
    · simp only [List.map_cons, if_pos (show (a.1 == h) = true by simpa using ha)]
      rw [List.find?_cons_of_neg _ (by simpa using Ne.symm hne),
        List.find?_cons_of_neg _ (by simpa [ha] using Ne.symm hne)]
      exact ih
    · simp only [List.map_cons, if_neg (show ¬ (a.1 == h) = true by simpa using ha)]
      by_cases ha2 : a.1 = h2
      · rw [List.find?_cons_of_pos _ (by simpa using ha2),
          List.find?_cons_of_pos _ (by simpa using ha2)]
      · rw [List.find?_cons_of_neg _ (by simpa using ha2),
          List.find?_cons_of_neg _ (by simpa using ha2)]
        exact ih

lemma find_overwrite_ne (h h2 : RawSocket) (t : Token) (i : Interest)
    (reg : Registry) (hne : h2 ≠ h) :
    Registry.find ⟨reg.table.map (fun e => if e.1 == h then (h, t, i) else e)⟩ h2
      = reg.find h2 := by
  simp only [Registry.find]
  rw [find?_map_overwrite_ne h h2 t i reg.table hne]

lemma find_filter_self (h : RawSocket)
    (l : List (RawSocket × Token × Interest)) :
    Registry.find ⟨l.filter (fun e => e.1 != h)⟩ h = none := by
  have hnone : (l.filter (fun e => e.1 != h)).find? (fun e => e.1 == h) = none := by
    rw [List.find?_eq_none]
    intro e he
    have := (List.mem_filter.mp he).2
    simpa using this
  simp [Registry.find, hnone]

lemma find?_filter_ne (h h2 : RawSocket)
    (l : List (RawSocket × Token × Interest)) (hne : h2 ≠ h) :
    (l.filter (fun e => e.1 != h)).find? (fun e => e.1 == h2)
      = l.find? (fun e => e.1 == h2) := by
  induction l with
  | nil => rfl
  | cons a l ih =>
    by_cases ha : a.1 = h
    · rw [List.filter_cons_of_neg (by simpa using ha)]
      rw [List.find?_cons_of_neg _ (by simpa [ha] using Ne.symm hne)]
      exact ih
    · rw [List.filter_cons_of_pos (by simpa using ha)]
      by_cases ha2 : a.1 = h2
      · rw [List.find?_cons_of_pos _ (by simpa using ha2),
          List.find?_cons_of_pos _ (by simpa using ha2)]
      · rw [List.find?_cons_of_neg _ (by simpa using ha2),
          List.find?_cons_of_neg _ (by simpa using ha2)]
        exact ih

lemma find_filter_ne (h h2 : RawSocket) (reg : Registry) (hne : h2 ≠ h) :
    Registry.find ⟨reg.table.filter (fun e => e.1 != h)⟩ h2 = reg.find h2 := by
  simp only [Registry.find]
  rw [find?_filter_ne h h2 reg.table hne]

/-- Claim C6: on every call to each of the three operations, the registry,
token and interest-set arguments reach the binding exactly as given and
the adapter mutates nothing itself.  For each operation the call's entire
effect on every registry state is characterised: a successful `register`
or `reregister` stores precisely the supplied token and interest set for
the handle and leaves every other handle's entry unchanged; a successful
`deregister` on the given registry removes exactly the handle's entry and
leaves every other entry unchanged; and a failing call of any operation
returns only an error, changing no registry state at all. -/
theorem adapter_arguments_passed_unmodified (h : RawSocket) (reg : Registry)
    (token : Token) (interests : Interest) :
    ((reg.isRegistered h = false
        ∧ ∃ reg1, ((SourceSocket.mk h).register reg token interests).2 = Except.ok reg1
          ∧ reg1.find h = some (token, interests)
          ∧ ∀ h2, h2 ≠ h → reg1.find h2 = reg.find h2)
      ∨ (reg.isRegistered h = true
        ∧ ((SourceSocket.mk h).register reg token interests).2
            = Except.error IoError.alreadyRegistered))
    ∧ ((reg.isRegistered h = true
        ∧ ∃ reg1, ((SourceSocket.mk h).reregister reg token interests).2 = Except.ok reg1
          ∧ reg1.find h = some (token, interests)
          ∧ ∀ h2, h2 ≠ h → reg1.find h2 = reg.find h2)
      ∨ (reg.isRegistered h = false
        ∧ ((SourceSocket.mk h).reregister reg token interests).2
            = Except.error IoError.notRegistered))
    ∧ ((reg.isRegistered h = true
        ∧ ∃ reg1, ((SourceSocket.mk h).deregister reg).2 = Except.ok reg1
          ∧ reg1.find h = none
          ∧ ∀ h2, h2 ≠ h → reg1.find h2 = reg.find h2)
      ∨ (reg.isRegistered h = false
        ∧ ((SourceSocket.mk h).deregister reg).2
            = Except.error IoError.notRegistered)) := by
  by_cases hr : reg.isRegistered h
  · refine ⟨Or.inr ⟨hr, ?_⟩, Or.inl ⟨hr, ?_⟩, Or.inl ⟨hr, ?_⟩⟩
    · simp [SourceSocket.register, IoSource.register, IoSource.new, hr]
    · refine ⟨⟨reg.table.map (fun e => if e.1 == h then (h, token, interests) else e)⟩,
        ?_, find_after_overwrite h token interests reg hr, ?_⟩
      · simp only [SourceSocket.reregister, IoSource.reregister, IoSource.new]
        rw [if_pos hr]
      · intro h2 hne
        exact find_overwrite_ne h h2 token interests reg hne
    · refine ⟨⟨reg.table.filter (fun e => e.1 != h)⟩,
        ?_, find_filter_self h reg.table, ?_⟩
      · simp only [SourceSocket.deregister, IoSource.deregister, IoSource.new]
        rw [if_pos hr]
      · intro h2 hne
        exact find_filter_ne h h2 reg hne
  · simp only [Bool.not_eq_true] at hr
    refine ⟨Or.inl ⟨hr, ?_⟩, Or.inr ⟨hr, ?_⟩, Or.inr ⟨hr, ?_⟩⟩
    · refine ⟨⟨(h, token, interests) :: reg.table⟩, ?_, ?_, ?_⟩
      · simp [SourceSocket.register, IoSource.register, IoSource.new, hr]
      · simp [Registry.find, List.find?]
      · intro h2 hne
        exact find_cons_ne h h2 token interests reg hne
    · simp [SourceSocket.reregister, IoSource.reregister, IoSource.new, hr]
    · simp [SourceSocket.deregister, IoSource.deregister, IoSource.new, hr]

/-- Claim C6 witness: the characterisation applied at handle 0 on the empty
registry — registering stores the supplied token and interest set and
leaves the entry of handle 1 exactly as it was. -/
theorem adapter_arguments_passed_unmodified_witness :
    Registry.find ⟨[(0, ⟨5⟩, Interest.both)]⟩ 1 = Registry.find ⟨[]⟩ 1
    ∧ Registry.find ⟨[(0, ⟨5⟩, Interest.both)]⟩ 0 = some (⟨5⟩, Interest.both) := by
  rcases (adapter_arguments_passed_unmodified 0 ⟨[]⟩ ⟨5⟩ Interest.both).1 with
    ⟨-, reg1, hok, hstore, hframe⟩ | ⟨hr, -⟩
  · have hreg1 : reg1 = ⟨[(0, ⟨5⟩, Interest.both)]⟩ :=
      Except.ok.inj (hok.symm.trans rfl)
    have hfr := hframe 1 (by decide)
    have hst := hstore
    rw [hreg1] at hfr hst
    exact ⟨hfr, hst⟩
  · exact absurd hr (by decide)

/-- Claim C7: none of the three operations changes the wrapped raw handle:
the handle value held by the adapter after each call (successful or
failing — the equation covers every outcome of the call) is identical to
the one held before. -/
theorem handle_unchanged_by_operations (s : SourceSocket) (registry : Registry)
    (token : Token) (interests : Interest) :
    (s.register registry token interests).1.sock = s.sock
    ∧ (s.reregister registry token interests).1.sock = s.sock
    ∧ (s.deregister registry).1.sock = s.sock :=
  ⟨rfl, rfl, rfl⟩

/-- Claim C8: the adapter is memoryless — its only state is the wrapped
handle, each operation returns the adapter state unchanged, and the
outcome of every operation is a function of that call's arguments and the
registry state alone: two adapter instances wrapping the same handle give
identical outcomes, so no earlier call can influence a later one. -/
theorem adapter_memoryless (s1 s2 : SourceSocket) (registry : Registry)
    (token : Token) (interests : Interest) (hsock : s1.sock = s2.sock) :
    (s1.register registry token interests).2
        = (s2.register registry token interests).2
    ∧ (s1.reregister registry token interests).2
        = (s2.reregister registry token interests).2
    ∧ (s1.deregister registry).2 = (s2.deregister registry).2
    ∧ (s1.register registry token interests).1 = s1
    ∧ (s1.reregister registry token interests).1 = s1
    ∧ (s1.deregister registry).1 = s1 := by
  cases s1
  cases s2
  simp only [SourceSocket.mk.injEq] at hsock
  subst hsock
  exact ⟨rfl, rfl, rfl, rfl, rfl, rfl⟩

/-- Claim C8 witness: the memoryless law applied at handle 3 on the empty
registry. -/
theorem adapter_memoryless_witness :
    ((SourceSocket.mk 3).register ⟨[]⟩ ⟨0⟩ Interest.readable).1
      = SourceSocket.mk 3 :=
  (adapter_memoryless (SourceSocket.mk 3) (SourceSocket.mk 3) ⟨[]⟩ ⟨0⟩
    Interest.readable rfl).2.2.2.1

/-- Claim C9: constructing an adapter from a handle reference is total and
effect-free: for every handle value there is an adapter wrapping exactly
that handle, produced by the tuple-struct constructor with no
precondition, no registry involvement and no possibility of failure (the
constructor is a pure total function in this embedding). -/
theorem sourceSocket_construction_total (r : RawSocket) :
    ∃ s : SourceSocket, SourceSocket.mk r = s ∧ s.sock = r :=
  ⟨⟨r⟩, rfl, rfl⟩

/-- Claim C10: construction/projection round trip — building the adapter
over a handle reference and reading its public field yields exactly that
reference, and every adapter is exactly the constructor applied to its
field. -/
theorem sourceSocket_mk_sock_roundtrip (r : RawSocket) (s : SourceSocket) :
    (SourceSocket.mk r).sock = r ∧ SourceSocket.mk s.sock = s :=
  ⟨rfl, rfl⟩
